import Mathlib

/-
Verification of the bolt utility: a keyed multi-listener event emitter
(Signal) and a minimal observable state cell (createState, useSignal,
useActions).  The definitions below are a shallow embedding of the
TypeScript source: JavaScript runtime values become the inductive JVal,
the Map held by Signal and plain objects become association lists over
String keys, and each stateful method becomes a pure function from the
pre-state to the post-state together with its observable outputs
(invocation traces, propagated exception, console diagnostics).
-/

set_option autoImplicit false

namespace Bolt

/-- JavaScript-like runtime values: the contents of a state cell. Objects
are association lists of own enumerable properties in enumeration
(insertion) order. -/
inductive JVal where
  | null : JVal
  | undefined : JVal
  | bool : Bool → JVal
  | num : Int → JVal
  | str : String → JVal
  | arr : List JVal → JVal
  | obj : List (String × JVal) → JVal
deriving Repr

/-- First-match association-list lookup over String keys, the semantics of
both Map.get and own-property access on a well-formed object. -/
def alookup {β : Type _} : List (String × β) → String → Option β
  | [], _ => none
  | p :: t, k => if p.1 = k then some p.2 else alookup t k

/-- Association-list update: replaces the value at the first binding of the
key, keeping its position, or appends a new binding at the end.  This is
the semantics of Map.set and of the object-literal spread followed by a
computed-key override on a well-formed (duplicate-free) object. -/
def aset {β : Type _} : List (String × β) → String → β → List (String × β)
  | [], k, v => [(k, v)]
  | p :: t, k, v => if p.1 = k then (k, v) :: t else p :: aset t k v

/-- Association-list deletion of every binding of the key: the semantics of
Map.delete on a well-formed (duplicate-free) map. -/
def adelete {β : Type _} : List (String × β) → String → List (String × β)
  | [], _ => []
  | p :: t, k => if p.1 = k then adelete t k else p :: adelete t k

/-- typeof v is the string "object" in JavaScript exactly for null, arrays
and plain objects. -/
def JVal.typeofObject : JVal → Bool
  | .null => true
  | .arr _ => true
  | .obj _ => true
  | _ => false

def JVal.isNull : JVal → Bool
  | .null => true
  | _ => false

/-- The guard of createState.add: typeof prevState is "object" and
prevState is not null. -/
def JVal.isNonNullObject (v : JVal) : Bool :=
  v.typeofObject && !v.isNull

/-- Array.isArray. -/
def JVal.isArray : JVal → Bool
  | .arr _ => true
  | _ => false

/-- Own enumerable string-keyed properties in enumeration order, as used by
Object.keys, property access and object spread.  Arrays and strings expose
their index keys; primitives have none. -/
def JVal.ownFields : JVal → List (String × JVal)
  | .obj fields => fields
  | .arr xs => xs.enum.map (fun p => (toString p.1, p.2))
  | .str s => s.data.enum.map (fun p => (toString p.1, JVal.str (String.mk [p.2])))
  | _ => []

/-- Object.keys. -/
def JVal.objectKeys (v : JVal) : List String :=
  v.ownFields.map Prod.fst

/-- Property read v[k]; an absent key reads as undefined. -/
def JVal.getProp (v : JVal) (k : String) : JVal :=
  (alookup v.ownFields k).getD .undefined

/-- The object literal that spreads v and then overrides the computed key k
with x: a shallow copy of v with only that key replaced (a key already
present keeps its position, a new key goes last). -/
def JVal.objSet (v : JVal) (k : String) (x : JVal) : JVal :=
  .obj (aset v.ownFields k x)

/-- Synchronous forEach dispatch over callbacks.  behav gives each
callback's outcome: none means it returns normally, some e means it throws
e.  The result is the list of callbacks actually invoked, in order, and
the propagated exception, if any; a throwing callback aborts the
invocation of every callback after it. -/
def forEachCall {α ε : Type _} (behav : α → Option ε) : List α → List α × Option ε
  | [] => ([], none)
  | l :: ls =>
    match behav l with
    | some e => ([l], some e)
    | none =>
      let r := forEachCall behav ls
      (l :: r.1, r.2)

/-- The Signal class: its only field is the Map from key to the ordered
array of subscribed listeners.  Listeners are drawn from an abstract type
L of callback identities. -/
structure Signal (L : Type _) where
  listenersMap : List (String × List L)

/-- new Signal(): the listeners map starts empty. -/
def Signal.new {L : Type _} : Signal L := ⟨[]⟩

/-- Signal.subscribe: creates an empty array for the key if absent, then
pushes the listener onto the key's array.  Returns the post-state. -/
def Signal.subscribe {L : Type _} (s : Signal L) (key : String) (listener : L) :
    Signal L :=
  let m := if (alookup s.listenersMap key).isSome then s.listenersMap
           else aset s.listenersMap key []
  ⟨aset m key ((alookup m key).getD [] ++ [listener])⟩

/-- Signal.unsubscribeByKey: deletes the key's entire entry from the map. -/
def Signal.unsubscribeByKey {L : Type _} (s : Signal L) (key : String) : Signal L :=
  ⟨adelete s.listenersMap key⟩

/-- Signal.subscribe together with its return value: the zero-argument
closure it returns captures only the key and, when invoked on whatever the
signal's state is at that time, performs unsubscribeByKey for that key. -/
def Signal.subscribeRet {L : Type _} (s : Signal L) (key : String) (listener : L) :
    Signal L × (Signal L → Signal L) :=
  (s.subscribe key listener, fun cur => cur.unsubscribeByKey key)

/-- Signal.emit: looks the key up (an absent key yields the empty array)
and invokes each listener in order with data.  emit only reads the map, so
the signal itself is unchanged; the result is the trace of listener
invocations, each paired with the data it received, and the propagated
exception if a listener threw. -/
def Signal.emit {L T ε : Type _} (s : Signal L) (key : String) (data : T)
    (behav : L → T → Option ε) : List (L × T) × Option ε :=
  let ls := (alookup s.listenersMap key).getD []
  let r := forEachCall (fun l => behav l data) ls
  (r.1.map (fun l => (l, data)), r.2)

/-- Subscribing a whole list of listeners to one key, in order. -/
def Signal.subscribeAll {L : Type _} (s : Signal L) (key : String) (ls : List L) :
    Signal L :=
  ls.foldl (fun cur l => cur.subscribe key l) s

/-- The closure state of createState: the current value and the array of
zero-argument change-listeners in registration order. -/
structure StateCell (T L : Type _) where
  state : T
  listeners : List L

/-- createState: the value starts as initialState and the listeners array
starts empty. -/
def createState {T L : Type _} (initialState : T) : StateCell T L :=
  ⟨initialState, []⟩

/-- getState: returns the current value, no side effects. -/
def StateCell.getState {T L : Type _} (c : StateCell T L) : T := c.state

/-- setState: commits updater(state) as the new value, then runs every
registered change-listener via forEach.  Returns the post-state, the trace
of listener invocations and the propagated exception if a listener threw;
the new value is committed before the listeners run. -/
def StateCell.setState {T L ε : Type _} (c : StateCell T L) (updater : T → T)
    (behav : L → Option ε) : StateCell T L × List L × Option ε :=
  let newState := updater c.state
  let r := forEachCall behav c.listeners
  (⟨newState, c.listeners⟩, r.1, r.2)

/-- The updater that add hands to setState, paired with the console.error
diagnostics it prints: if the previous state is a non-null object whose
key list is non-empty (Object.keys only ever yields strings, so the
typeof-string test on the first key always passes then), it targets the
first key; if that key's value is an array it appends the payload to a
copy, otherwise it replaces the value by the one-element array of the
payload, storing the result in a shallow copy of the object.  Otherwise it
logs a diagnostic and returns the previous state unchanged. -/
def addUpdaterLog (payload : JVal) (prevState : JVal) : JVal × List String :=
  if prevState.isNonNullObject then
    match prevState.objectKeys with
    | [] => (prevState, ["Error: prevValue no tiene una clave de tipo string."])
    | key :: _ =>
      let currentValue := prevState.getProp key
      let updatedValue :=
        match currentValue with
        | .arr xs => JVal.arr (xs ++ [payload])
        | _ => JVal.arr [payload]
      (prevState.objSet key updatedValue, [])
  else
    (prevState, ["Error: prevValue no es un objeto válido."])

/-- The value component of the updater used by add. -/
def addUpdater (payload : JVal) (prevState : JVal) : JVal :=
  (addUpdaterLog payload prevState).1

/-- The console diagnostics emitted by add's updater. -/
def addLog (payload : JVal) (prevState : JVal) : List String :=
  (addUpdaterLog payload prevState).2

/-- add: a convenience built on setState with the updater above. -/
def StateCell.add {L ε : Type _} (c : StateCell JVal L) (payload : JVal)
    (behav : L → Option ε) : StateCell JVal L × List L × Option ε :=
  c.setState (addUpdater payload) behav

/-- The read half of useSignal: returns state.getState()[key]. -/
def useSignalRead {L : Type _} (c : StateCell JVal L) (key : String) : JVal :=
  c.getState.getProp key

/-- The write half of useSignal: setState with an updater that
shallow-copies the state object and replaces only the given key's value
with updater(oldValue). -/
def useSignalWrite {L ε : Type _} (c : StateCell JVal L) (key : String)
    (updater : JVal → JVal) (behav : L → Option ε) :
    StateCell JVal L × List L × Option ε :=
  c.setState (fun prevState => prevState.objSet key (updater (prevState.getProp key))) behav

/-- The dispatch of useActions, as performed by the trigger built for an
action type: setState with an updater that looks the handler up in the
actions record, calls it with the payload if present, and returns the
previous state unchanged.  Handlers come from an abstract type H; a
handler invocation is recorded in a trace as the pair of the handler and
the payload it received (its side effects are opaque). -/
def useActionsDispatch {T L ε H P : Type _} (st : StateCell T L)
    (actions : List (String × H)) (actionType : String) (payload : P)
    (behav : L → Option ε) :
    (StateCell T L × List L × Option ε) × List (H × P) :=
  let handlerTrace :=
    match alookup actions actionType with
    | some h => [(h, payload)]
    | none => []
  (st.setState (fun prevState => prevState) behav, handlerTrace)

/-! Basic lemmas about the association-list operations and dispatch. -/

theorem alookup_aset_self {β : Type _} (m : List (String × β)) (k : String) (v : β) :
    alookup (aset m k v) k = some v := by
  induction m with
  | nil => simp [aset, alookup]
  | cons p t ih =>
    by_cases h : p.1 = k
    · simp [aset, alookup, h]
    · simp [aset, alookup, h, ih]

theorem alookup_aset_ne {β : Type _} (m : List (String × β)) (k k2 : String) (v : β)
    (h : k2 ≠ k) : alookup (aset m k v) k2 = alookup m k2 := by
  induction m with
  | nil =>
    have hne : ¬ k = k2 := fun hh => h hh.symm
    simp [aset, alookup, hne]
  | cons p t ih =>
    by_cases hp : p.1 = k
    · subst hp
      have hne : ¬ p.1 = k2 := fun hh => h hh.symm
      simp [aset, alookup, hne]
    · simp [aset, alookup, hp, ih]

theorem alookup_adelete_self {β : Type _} (m : List (String × β)) (k : String) :
    alookup (adelete m k) k = none := by
  induction m with
  | nil => simp [adelete, alookup]
  | cons p t ih =>
    by_cases h : p.1 = k
    · simp [adelete, h, ih]
    · simp [adelete, alookup, h, ih]

theorem forEachCall_all_none {α ε : Type _} (behav : α → Option ε) (ls : List α)
    (h : ∀ l ∈ ls, behav l = none) : forEachCall behav ls = (ls, none) := by
  induction ls with
  | nil => rfl
  | cons l t ih =>
    have hl : behav l = none := h l (List.mem_cons_self l t)
    have ht := ih (fun x hx => h x (List.mem_cons_of_mem l hx))
    simp [forEachCall, hl, ht]

theorem forEachCall_throw {α ε : Type _} (behav : α → Option ε) (pre post : List α)
    (l : α) (e : ε) (hpre : ∀ x ∈ pre, behav x = none) (hl : behav l = some e) :
    forEachCall behav (pre ++ l :: post) = (pre ++ [l], some e) := by
  induction pre with
  | nil => simp [forEachCall, hl]
  | cons x t ih =>
    have hx : behav x = none := hpre x (List.mem_cons_self x t)
    have ht := ih (fun y hy => hpre y (List.mem_cons_of_mem x hy))
    simp [forEachCall, hx, ht]

theorem subscribe_lookup_self {L : Type _} (s : Signal L) (key : String) (l : L) :
    alookup (s.subscribe key l).listenersMap key =
      some ((alookup s.listenersMap key).getD [] ++ [l]) := by
  unfold Signal.subscribe
  cases h : alookup s.listenersMap key with
  | none => simp [h, alookup_aset_self]
  | some ls => simp [h, alookup_aset_self]

theorem subscribeAll_lookup {L : Type _} (s : Signal L) (key : String) (ls : List L) :
    (alookup (s.subscribeAll key ls).listenersMap key).getD [] =
      (alookup s.listenersMap key).getD [] ++ ls := by
  induction ls generalizing s with
  | nil => simp [Signal.subscribeAll]
  | cons l t ih =>
    have hstep := subscribe_lookup_self s key l
    have : (s.subscribe key l).subscribeAll key t = s.subscribeAll key (l :: t) := by
      simp [Signal.subscribeAll, List.foldl_cons]
    rw [← this, ih, hstep]
    simp

theorem getProp_objSet_self (v : JVal) (k : String) (x : JVal) :
    (v.objSet k x).getProp k = x := by
  simp [JVal.objSet, JVal.getProp, JVal.ownFields, alookup_aset_self]

theorem getProp_objSet_ne (v : JVal) (k k2 : String) (x : JVal) (h : k2 ≠ k) :
    (v.objSet k x).getProp k2 = v.getProp k2 := by
  simp [JVal.objSet, JVal.getProp, JVal.ownFields, alookup_aset_ne _ _ _ _ h]

theorem addUpdater_bad_state (payload : JVal) (v : JVal)
    (hbad : v.isNonNullObject = false ∨ v.objectKeys = []) :
    addUpdater payload v = v ∧ addLog payload v ≠ [] := by
  rcases hbad with h1 | h2
  · simp [addUpdater, addLog, addUpdaterLog, h1]
  · by_cases h1 : v.isNonNullObject
    · simp [addUpdater, addLog, addUpdaterLog, h1, h2]
    · simp [addUpdater, addLog, addUpdaterLog, h1]

/-! Theorems settling the claims. -/

/-- C1: on a state whose current value is a non-null object with at least
one own key (here written head-first, with the well-formedness condition
that the first key does not recur), add(payload) targets the first key in
enumeration order: an array value under that key becomes a fresh array
equal to the old one with payload appended, any other value is replaced by
the one-element array of the payload, in a shallow copy of the object that
leaves every other binding unchanged; no diagnostic is logged.  The
embedding is pure, so the original object and array values are never
mutated: the new state is constructed from, not aliased to, the old. -/
theorem add_appends_at_first_key {L ε : Type} (ls : List L) (k : String) (v : JVal)
    (rest : List (String × JVal)) (payload : JVal) (behav : L → Option ε)
    (_hk : k ∉ rest.map Prod.fst) :
    ((StateCell.mk (JVal.obj ((k, v) :: rest)) ls).add payload behav).1.state =
      JVal.obj ((k, match v with
        | JVal.arr xs => JVal.arr (xs ++ [payload])
        | _ => JVal.arr [payload]) :: rest)
    ∧ addLog payload (JVal.obj ((k, v) :: rest)) = [] := by
  constructor
  · show addUpdater payload (JVal.obj ((k, v) :: rest)) = _
    cases v <;>
      simp [addUpdater, addUpdaterLog, JVal.isNonNullObject, JVal.typeofObject,
        JVal.isNull, JVal.objectKeys, JVal.ownFields, JVal.getProp, JVal.objSet,
        alookup, aset]
  · cases v <;>
      simp [addLog, addUpdaterLog, JVal.isNonNullObject, JVal.typeofObject,
        JVal.isNull, JVal.objectKeys, JVal.ownFields]

/-- C1 witness: add(3) on a cell holding the object with single key "items"
bound to the array [1, 2]. -/
theorem add_appends_at_first_key_witness :
    ((StateCell.mk (JVal.obj [("items", JVal.arr [JVal.num 1, JVal.num 2])])
        ([] : List Nat)).add (JVal.num 3) (fun _ => (none : Option Unit))).1.state =
      JVal.obj [("items", JVal.arr [JVal.num 1, JVal.num 2, JVal.num 3])]
    ∧ addLog (JVal.num 3) (JVal.obj [("items", JVal.arr [JVal.num 1, JVal.num 2])]) = [] :=
  add_appends_at_first_key [] "items" (JVal.arr [JVal.num 1, JVal.num 2]) [] (JVal.num 3)
    (fun _ => none) (by simp)

/-- C2: the zero-argument closure returned by subscribe(K, L1) captures
only the key, so invoking it on the signal's then-current state — whatever
listeners were added under K before or after the closure was created —
deletes the whole entry for K, and a subsequent emit(K, data) invokes no
listener at all. -/
theorem unsubscribe_closure_removes_all {L T ε : Type} (s : Signal L) (K : String)
    (l1 : L) (cur : Signal L) (data : T) (behav : L → T → Option ε) :
    alookup ((s.subscribeRet K l1).2 cur).listenersMap K = none
    ∧ ((s.subscribeRet K l1).2 cur).emit K data behav = ([], none) := by
  have hdel : alookup ((s.subscribeRet K l1).2 cur).listenersMap K = none := by
    simp [Signal.subscribeRet, Signal.unsubscribeByKey, alookup_adelete_self]
  refine ⟨hdel, ?_⟩
  simp [Signal.emit, hdel, forEachCall]

/-- C3: setState(u) commits u(currentValue) — getState afterwards returns
exactly u of the previous value — and then invokes every registered
change-listener exactly once per call, in registration order (the trace of
invocations is precisely the listeners array), raising nothing when no
listener throws. -/
theorem setState_commits_and_notifies {T L ε : Type} (c : StateCell T L)
    (u : T → T) (behav : L → Option ε)
    (h : ∀ l ∈ c.listeners, behav l = none) :
    ((c.setState u behav).1.getState = u c.getState)
    ∧ (c.setState u behav).2.1 = c.listeners
    ∧ (c.setState u behav).2.2 = none := by
  have hfe := forEachCall_all_none behav c.listeners h
  simp [StateCell.setState, StateCell.getState, hfe]

/-- C3 witness: a cell holding 0 with two registered listeners, updated to
5; both listeners fire once, in order. -/
theorem setState_commits_and_notifies_witness :
    (((StateCell.mk (JVal.num 0) [0, 1]).setState (fun _ => JVal.num 5)
        (fun _ => (none : Option Unit))).1.getState = JVal.num 5)
    ∧ ((StateCell.mk (JVal.num 0) [0, 1]).setState (fun _ => JVal.num 5)
        (fun _ => (none : Option Unit))).2.1 = [0, 1]
    ∧ ((StateCell.mk (JVal.num 0) [0, 1]).setState (fun _ => JVal.num 5)
        (fun _ => (none : Option Unit))).2.2 = none :=
  setState_commits_and_notifies (StateCell.mk (JVal.num 0) [0, 1]) (fun _ => JVal.num 5)
    (fun _ => none) (by intro l _; rfl)

/-- C4: after any finite sequence of subscribe(K, Li) calls on any signal,
with no intervening unsubscription, a single emit(K, data) invokes each
listener registered under K — those already present followed by the newly
subscribed Li — exactly once with data, in subscription order, when none
of them throws. -/
theorem emit_invokes_subscribed_in_order {L T ε : Type} (s : Signal L) (K : String)
    (ls : List L) (data : T) (behav : L → T → Option ε)
    (h : ∀ l ∈ (alookup s.listenersMap K).getD [] ++ ls, behav l data = none) :
    (s.subscribeAll K ls).emit K data behav =
      (((alookup s.listenersMap K).getD [] ++ ls).map (fun l => (l, data)), none) := by
  have hlk := subscribeAll_lookup s K ls
  have hfe := forEachCall_all_none (fun l => behav l data)
    ((alookup s.listenersMap K).getD [] ++ ls) h
  simp [Signal.emit, hlk, hfe]

/-- C4 witness: three listeners subscribed under "k" on a fresh signal all
receive "d", in order, from a single emit. -/
theorem emit_invokes_subscribed_in_order_witness :
    ((Signal.new : Signal Nat).subscribeAll "k" [1, 2, 3]).emit "k" "d"
        (fun _ _ => (none : Option Unit)) =
      ([(1, "d"), (2, "d"), (3, "d")], none) :=
  emit_invokes_subscribed_in_order Signal.new "k" [1, 2, 3] "d" (fun _ _ => none)
    (by intro l _; rfl)

/-- C5: when the current value is not a non-null object, or is an object
with zero own keys, add(payload) leaves the state unchanged, logs a
diagnostic to the console sink, and raises nothing — the failure is
signalled in no returned value, only in the log. -/
theorem add_bad_state_noop {L ε : Type} (c : StateCell JVal L) (payload : JVal)
    (behav : L → Option ε)
    (hbad : c.state.isNonNullObject = false ∨ c.state.objectKeys = [])
    (hb : ∀ l ∈ c.listeners, behav l = none) :
    ((c.add payload behav).1.getState = c.getState)
    ∧ addLog payload c.state ≠ []
    ∧ (c.add payload behav).2.2 = none := by
  have hupd := addUpdater_bad_state payload c.state hbad
  have hfe := forEachCall_all_none behav c.listeners hb
  refine ⟨?_, hupd.2, ?_⟩
  · simp [StateCell.add, StateCell.setState, StateCell.getState, hupd.1]
  · simp [StateCell.add, StateCell.setState, hfe]

/-- C5 witness: add("x") on a cell holding the number 5, with one
registered listener: the state stays 5, a diagnostic is logged, no
exception escapes. -/
theorem add_bad_state_noop_witness :
    (((StateCell.mk (JVal.num 5) [0]).add (JVal.str "x")
        (fun _ => (none : Option Unit))).1.getState = (StateCell.mk (JVal.num 5) [0]).getState)
    ∧ addLog (JVal.str "x") (JVal.num 5) ≠ []
    ∧ ((StateCell.mk (JVal.num 5) [0]).add (JVal.str "x")
        (fun _ => (none : Option Unit))).2.2 = none :=
  add_bad_state_noop (StateCell.mk (JVal.num 5) [0]) (JVal.str "x") (fun _ => none)
    (Or.inl rfl) (by intro l _; rfl)

/-- C6: a listener throwing during dispatch is caught nowhere: for
Signal.emit, if the listeners under K are pre ++ l :: post, the callbacks
in pre run, l runs and throws e, the exception propagates to the emitter's
caller, and nothing in post is invoked; likewise for the change-listener
notification round of setState. -/
theorem listener_error_propagates {L T T2 ε : Type}
    (S : Signal L) (K : String) (pre post : List L) (l : L) (data : T)
    (behavE : L → T → Option ε) (e : ε)
    (c : StateCell T2 L) (pre2 post2 : List L) (l2 : L) (u : T2 → T2)
    (behavC : L → Option ε) (e2 : ε)
    (hS : alookup S.listenersMap K = some (pre ++ l :: post))
    (h1 : ∀ x ∈ pre, behavE x data = none) (h2 : behavE l data = some e)
    (hC : c.listeners = pre2 ++ l2 :: post2)
    (h3 : ∀ x ∈ pre2, behavC x = none) (h4 : behavC l2 = some e2) :
    S.emit K data behavE = ((pre ++ [l]).map (fun x => (x, data)), some e)
    ∧ (c.setState u behavC).2 = (pre2 ++ [l2], some e2) := by
  constructor
  · have hfe := forEachCall_throw (fun x => behavE x data) pre post l e h1 h2
    simp [Signal.emit, hS, hfe]
  · have hfe := forEachCall_throw behavC pre2 post2 l2 e2 h3 h4
    simp [StateCell.setState, hC, hfe]

/-- C6 witness: under "k" the second of three listeners throws "boom", so
emit invokes only the first two and propagates "boom"; in a cell with
three listeners the second throws "crash", so setState's notification
round stops after two invocations and propagates "crash". -/
theorem listener_error_propagates_witness :
    (Signal.mk [("k", [1, 2, 3])]).emit "k" "d"
        (fun n _ => if n = 2 then some "boom" else none) =
      ([(1, "d"), (2, "d")], some "boom")
    ∧ ((StateCell.mk (JVal.num 0) [4, 5, 6]).setState (fun v => v)
        (fun n => if n = 5 then some "crash" else none)).2 = ([4, 5], some "crash") :=
  listener_error_propagates (Signal.mk [("k", [1, 2, 3])]) "k" [1] [3] 2 "d"
    (fun n _ => if n = 2 then some "boom" else none) "boom"
    (StateCell.mk (JVal.num 0) [4, 5, 6]) [4] [6] 5 (fun v => v)
    (fun n => if n = 5 then some "crash" else none) "crash"
    rfl (by decide) rfl rfl (by decide) rfl

/-- C7: for a state over an object value, the pair returned by
useSignal(state, k) satisfies: read() is exactly getState()[k] at call
time, and write(u) replaces only key k's value with u(old value), while
any other key k2 keeps the value it had (shallow copy with one key
replaced). -/
theorem useSignal_projects_one_key {L ε : Type} (c : StateCell JVal L)
    (fields : List (String × JVal)) (k k2 : String) (u : JVal → JVal)
    (behav : L → Option ε) (_hobj : c.state = JVal.obj fields) (hk2 : k2 ≠ k) :
    useSignalRead c k = c.getState.getProp k
    ∧ ((useSignalWrite c k u behav).1.state).getProp k = u (c.state.getProp k)
    ∧ ((useSignalWrite c k u behav).1.state).getProp k2 = c.state.getProp k2 := by
  refine ⟨rfl, ?_, ?_⟩
  · simp [useSignalWrite, StateCell.setState, getProp_objSet_self]
  · simp [useSignalWrite, StateCell.setState, getProp_objSet_ne _ _ _ _ hk2]

/-- C7 witness: on the object with keys "count" and "b", writing "count"
to 2 leaves "b" at its previous value and read reflects getState. -/
theorem useSignal_projects_one_key_witness :
    useSignalRead (StateCell.mk (JVal.obj [("count", JVal.num 1), ("b", JVal.str "z")])
        ([] : List Nat)) "count" =
      (StateCell.mk (JVal.obj [("count", JVal.num 1), ("b", JVal.str "z")])
        ([] : List Nat)).getState.getProp "count"
    ∧ ((useSignalWrite (StateCell.mk (JVal.obj [("count", JVal.num 1), ("b", JVal.str "z")])
        ([] : List Nat)) "count" (fun _ => JVal.num 2)
        (fun _ => (none : Option Unit))).1.state).getProp "count" = JVal.num 2
    ∧ ((useSignalWrite (StateCell.mk (JVal.obj [("count", JVal.num 1), ("b", JVal.str "z")])
        ([] : List Nat)) "count" (fun _ => JVal.num 2)
        (fun _ => (none : Option Unit))).1.state).getProp "b" =
      (JVal.obj [("count", JVal.num 1), ("b", JVal.str "z")]).getProp "b" :=
  useSignal_projects_one_key
    (StateCell.mk (JVal.obj [("count", JVal.num 1), ("b", JVal.str "z")]) [])
    [("count", JVal.num 1), ("b", JVal.str "z")] "count" "b" (fun _ => JVal.num 2)
    (fun _ => none) rfl (by decide)

/-- C8: a trigger produced by useActions for action type A, called with a
payload, invokes the handler bound to A exactly once with that payload,
and the updater it hands to setState returns the previous state value
unchanged — the dispatch wrapper itself never alters the state. -/
theorem useActions_trigger_invokes_handler {T L ε H P : Type}
    (st : StateCell T L) (actions : List (String × H)) (A : String) (hA : H)
    (payload : P) (behav : L → Option ε)
    (hfound : alookup actions A = some hA) :
    (useActionsDispatch st actions A payload behav).2 = [(hA, payload)]
    ∧ (useActionsDispatch st actions A payload behav).1.1.state = st.state := by
  simp [useActionsDispatch, hfound, StateCell.setState]

/-- C8 witness: dispatching "inc" with payload "p" invokes the bound
handler once with "p" and leaves the state value untouched. -/
theorem useActions_trigger_invokes_handler_witness :
    (useActionsDispatch (StateCell.mk (JVal.num 0) [1]) [("inc", "hInc")] "inc"
        (JVal.str "p") (fun _ => (none : Option Unit))).2 = [("hInc", JVal.str "p")]
    ∧ (useActionsDispatch (StateCell.mk (JVal.num 0) [1]) [("inc", "hInc")] "inc"
        (JVal.str "p") (fun _ => (none : Option Unit))).1.1.state = JVal.num 0 :=
  useActions_trigger_invokes_handler (StateCell.mk (JVal.num 0) [1]) [("inc", "hInc")]
    "inc" "hInc" (JVal.str "p") (fun _ => none) rfl

/-- C9: emit on a key with no registered listeners invokes nothing and
raises nothing.  In this embedding emit only reads the listeners map and
returns no new Signal, so the mapping is unchanged by construction. -/
theorem emit_unregistered_key_noop {L T ε : Type} (s : Signal L) (K : String)
    (data : T) (behav : L → T → Option ε)
    (h : (alookup s.listenersMap K).getD [] = []) :
    s.emit K data behav = ([], none) := by
  simp [Signal.emit, h, forEachCall]

/-- C9 witness: a signal with listeners only under "a" emits under "b"
with no invocation and no error. -/
theorem emit_unregistered_key_noop_witness :
    (Signal.mk [("a", [1])]).emit "b" "d" (fun _ _ => (none : Option Unit)) =
      ([], none) :=
  emit_unregistered_key_noop (Signal.mk [("a", [1])]) "b" "d" (fun _ _ => none) rfl

/-- C10: setState notifies unconditionally: even with the identity
updater the whole listeners array is invoked; hence add on its
silent-failure path (non-object state or zero keys) leaves the value
unchanged yet still fires every change-listener exactly once, and so does
every useActions trigger, whose updater returns the state unchanged. -/
theorem notifications_fire_unconditionally {L ε H P : Type} (c : StateCell JVal L)
    (payload : JVal) (actions : List (String × H)) (A : String) (p2 : P)
    (behav : L → Option ε)
    (hbad : c.state.isNonNullObject = false ∨ c.state.objectKeys = [])
    (hb : ∀ l ∈ c.listeners, behav l = none) :
    (c.setState (fun s => s) behav).2.1 = c.listeners
    ∧ (c.add payload behav).1.state = c.state
    ∧ (c.add payload behav).2.1 = c.listeners
    ∧ (useActionsDispatch c actions A p2 behav).1.1.state = c.state
    ∧ (useActionsDispatch c actions A p2 behav).1.2.1 = c.listeners := by
  have hfe := forEachCall_all_none behav c.listeners hb
  have hupd := addUpdater_bad_state payload c.state hbad
  refine ⟨?_, ?_, ?_, ?_, ?_⟩
  · simp [StateCell.setState, hfe]
  · simp [StateCell.add, StateCell.setState, hupd.1]
  · simp [StateCell.add, StateCell.setState, hfe]
  · simp [useActionsDispatch, StateCell.setState]
  · simp [useActionsDispatch, StateCell.setState, hfe]

/-- C10 witness: on a cell holding the non-object 5 with two listeners,
plain setState, the failing add, and an action dispatch each fire both
listeners once while the value stays 5. -/
theorem notifications_fire_unconditionally_witness :
    ((StateCell.mk (JVal.num 5) [0, 1]).setState (fun s => s)
        (fun _ => (none : Option Unit))).2.1 = [0, 1]
    ∧ ((StateCell.mk (JVal.num 5) [0, 1]).add (JVal.str "x")
        (fun _ => (none : Option Unit))).1.state = JVal.num 5
    ∧ ((StateCell.mk (JVal.num 5) [0, 1]).add (JVal.str "x")
        (fun _ => (none : Option Unit))).2.1 = [0, 1]
    ∧ (useActionsDispatch (StateCell.mk (JVal.num 5) [0, 1]) [("inc", "hInc")] "inc"
        (JVal.str "p") (fun _ => (none : Option Unit))).1.1.state = JVal.num 5
    ∧ (useActionsDispatch (StateCell.mk (JVal.num 5) [0, 1]) [("inc", "hInc")] "inc"
        (JVal.str "p") (fun _ => (none : Option Unit))).1.2.1 = [0, 1] :=
  notifications_fire_unconditionally (StateCell.mk (JVal.num 5) [0, 1]) (JVal.str "x")
    [("inc", "hInc")] "inc" (JVal.str "p") (fun _ => none) (Or.inl rfl)
    (by intro l _; rfl)

end Bolt
